import Mathlib

/-!
Verification development for the Songbird terminal coding agent.

The Python sources are shallowly embedded: pure string/list manipulation is
translated directly, effectful operations (subprocess spawning, file system
writes, user confirmation prompts) are made explicit by threading a world /
file-system value and returning event flags.  Machine-level details that no
claim depends on (byte-level decoding with replacement characters, Rich
console rendering) are abstracted and documented at each definition.
-/

namespace Songbird

/-- Prefix test on character lists: the second list starts with the first. -/
def listStartsWith : List Char → List Char → Bool
  | [], _ => true
  | _ :: _, [] => false
  | a :: as, b :: bs => a == b && listStartsWith as bs

/-- Substring containment on character lists, mirroring the Python
operator form (pat in s): true when pat occurs contiguously in s. -/
def listContainsSub : List Char → List Char → Bool
  | [], pat => pat.isEmpty
  | a :: t, pat => listStartsWith pat (a :: t) || listContainsSub t pat

/-- Substring containment on strings (Python: pat in s). -/
def strContainsSub (s pat : String) : Bool :=
  listContainsSub s.toList pat.toList

/-- ASCII lower-casing of a string, modelling Python str.lower on the
ASCII command and message strings the claims use. -/
def pyLower (s : String) : String :=
  String.mk (s.toList.map Char.toLower)

/-- From songbird/tools/shell_exec.py: the denylist inside is_command_safe. -/
def dangerous_patterns : List String :=
  ["rm -rf /", "mkfs", "dd if=", ":(){ :|:& };:", "sudo rm", "sudo dd",
   "format", "> /dev/", "chmod 777 /"]

/-- From songbird/tools/shell_exec.py, is_command_safe: true when no
denylist pattern occurs in the lower-cased command. -/
def is_command_safe (command : String) : Bool :=
  !(dangerous_patterns.any (fun pattern => strContainsSub (pyLower command) pattern))

/-- Outcome of the spawned subprocess, supplied by the environment:
either the timeout fires first, or the process finishes with an exit code
and decoded stdout/stderr (modelled as character lists; the utf-8
decode-with-replacement step is abstracted into the world). -/
inductive ShellOutcome where
  | timedOut
  | completed (exitCode : Int) (stdout stderr : List Char)
deriving DecidableEq, Repr

/-- The parts of the outside world shell_exec consults: the current
working directory, the set of existing directories (already resolved),
and what the subprocess would do. -/
structure ShellWorld where
  cwd : String
  dirs : List String
  outcome : ShellOutcome
deriving DecidableEq, Repr

/-- Result dictionary of shell_exec; optional fields model dictionary
keys that are only sometimes present. -/
structure ShellResult where
  success : Bool
  exit_code : Option Int := none
  stdout : Option (List Char) := none
  stderr : Option (List Char) := none
  command : Option String := none
  working_dir : Option String := none
  error : Option String := none
  output_truncated : Option Bool := none
deriving DecidableEq, Repr

/-- Observable process events of one shell_exec run. -/
structure ShellEvents where
  spawned : Bool
  killed : Bool
deriving DecidableEq, Repr

/-- The body of shell_exec once the working directory wd has been
resolved: spawn the subprocess, then either time out (kill, failure
result) or decode, truncate to max_output_size characters, and report
success from the exit code. -/
def shell_exec_run (command : String) (timeout : Nat) (max_output_size : Nat)
    (wd : String) (outcome : ShellOutcome) : ShellResult × ShellEvents :=
  match outcome with
  | .timedOut =>
      ({ success := false
         error := some ("Command timed out after " ++ toString timeout ++ " seconds")
         command := some command
         working_dir := some wd },
       { spawned := true, killed := true })
  | .completed exitCode out err =>
      let output_truncated := out.length > max_output_size || err.length > max_output_size
      let stdout := if out.length > max_output_size then out.take max_output_size else out
      let stderr := if err.length > max_output_size then err.take max_output_size else err
      let success := exitCode == 0
      ({ success := success
         exit_code := some exitCode
         stdout := some stdout
         stderr := some stderr
         command := some command
         working_dir := some wd
         output_truncated := if output_truncated then some true else none
         error := if success then none else
           some ("Command failed with exit code " ++ toString exitCode) },
       { spawned := true, killed := false })

/-- From songbird/tools/shell_exec.py, shell_exec: validate the working
directory (falling back to the current directory), then execute.  Note
that is_command_safe is never consulted anywhere in this function. -/
def shell_exec (command : String) (working_dir : Option String)
    (timeout : Nat := 30) (max_output_size : Nat := 4096)
    (w : ShellWorld) : ShellResult × ShellEvents :=
  match working_dir with
  | some d =>
      if w.dirs.contains d then
        shell_exec_run command timeout max_output_size d w.outcome
      else
        ({ success := false
           error := some ("Working directory does not exist: " ++ d) },
         { spawned := false, killed := false })
  | none => shell_exec_run command timeout max_output_size w.cwd w.outcome

/-! ## File system model and file tools -/

/-- One directory entry: a regular file or a directory.  For files the
on-disk byte size and, when the bytes decode as utf-8, the decoded text
are recorded; text = none models a binary file for which Python raises
UnicodeDecodeError. -/
structure FileEntry where
  isFile : Bool := true
  size : Nat := 0
  text : Option String := none
deriving DecidableEq, Repr

/-- The file system as a finite path-to-entry association. -/
def FS : Type := List (String × FileEntry)

instance : DecidableEq FS := by
  unfold FS
  infer_instance

instance : Repr FS := by
  unfold FS
  infer_instance

/-- Lookup of a path in the file system (Python: Path.exists plus stat). -/
def fsLookup (fs : FS) (path : String) : Option FileEntry :=
  (fs.find? (fun p => p.1 == path)).map (fun p => p.2)

/-- Overwrite or create the entry at a path. -/
def fsSet (fs : FS) (path : String) (e : FileEntry) : FS :=
  match fs with
  | [] => [(path, e)]
  | (q, d) :: t => if q == path then (q, e) :: t else (q, d) :: fsSet t path e

/-- Splitting of a character list into lines that keep their trailing
newline, modelling both Python readlines() and splitlines(keepends=True)
on the newline-terminated text the tools read and diff (carriage returns
are not given separate treatment; joining the pieces always restores the
input, which is the property the development uses). -/
def pyLinesChars : List Char → List (List Char)
  | [] => []
  | c :: t =>
      if c = '\n' then [c] :: pyLinesChars t
      else
        match pyLinesChars t with
        | [] => [[c]]
        | l :: ls => (c :: l) :: ls

/-- readlines() on a string. -/
def pyReadLines (s : String) : List String :=
  (pyLinesChars s.toList).map String.mk

/-- Python index normalization for step-1 slices: negative indices count
from the end, and indices are clamped to the list bounds. -/
def pySliceIndex (n : Nat) (i : Int) : Nat :=
  if i < 0 then ((n : Int) + i).toNat else min n i.toNat

/-- Python step-1 slice l[start:stop]. -/
def pySlice (l : List String) (start stop : Int) : List String :=
  (l.take (pySliceIndex l.length stop)).drop (pySliceIndex l.length start)

/-- Python slice l[start:] with only a lower bound. -/
def pySliceFrom (l : List String) (start : Int) : List String :=
  l.drop (pySliceIndex l.length start)

/-- Result dictionary of file_read. -/
structure ReadResult where
  success : Bool
  file_path : Option String := none
  content : Option String := none
  total_lines : Option Nat := none
  lines_returned : Option Nat := none
  encoding : Option String := none
  error : Option String := none
deriving DecidableEq, Repr

/-- The line-range selection inside file_read, over all_lines. -/
def file_read_select (all_lines : List String) (lines start_line : Option Int) :
    List String :=
  match start_line with
  | some sl =>
      let start_idx : Int := max 0 (sl - 1)
      match lines with
      | some n => pySlice all_lines start_idx (start_idx + n)
      | none => pySliceFrom all_lines start_idx
  | none =>
      match lines with
      | some n => pySlice all_lines 0 n
      | none => all_lines

/-- From songbird/tools/file_operations.py, file_read: reject missing
paths, non-files, files over 1 MiB, and binary (non-utf-8) files; on
success return the selected content with line metadata.  The function is
total: every Python exception path is one of the error results. -/
def file_read (fs : FS) (file_path : String)
    (lines : Option Int := none) (start_line : Option Int := none) : ReadResult :=
  match fsLookup fs file_path with
  | none => { success := false, error := some ("File not found: " ++ file_path) }
  | some e =>
      if !e.isFile then
        { success := false, error := some ("Path is not a file: " ++ file_path) }
      else if e.size > 1024 * 1024 then
        { success := false, error := some ("File too large (>1MB): " ++ file_path) }
      else
        match e.text with
        | none =>
            { success := false
              error := some ("Cannot read file (binary or encoding issue): " ++ file_path) }
        | some content =>
            let all_lines := pyReadLines content
            let selected := file_read_select all_lines lines start_line
            { success := true
              file_path := some file_path
              content := some (String.join selected)
              total_lines := some all_lines.length
              lines_returned := some selected.length
              encoding := some "utf-8" }

/-- Modelled from Python difflib.unified_diff at the granularity the
claims need: the generator yields nothing when the two line sequences
are equal (no opcode group differs) and otherwise yields the two file
headers followed by hunk lines.  Only emptiness versus non-emptiness of
the output is relied upon. -/
def unified_diff (old_lines new_lines : List String) (fromfile tofile : String) :
    List String :=
  if old_lines = new_lines then []
  else
    ("--- " ++ fromfile) :: ("+++ " ++ tofile) ::
      (old_lines.map (fun l => "-" ++ l) ++ new_lines.map (fun l => "+" ++ l))

/-- Result dictionary of file_edit (the preview phase).  The Rich
colour rendering of the diff is display-only and kept as the raw diff
lines. -/
structure EditResult where
  success : Bool
  file_path : Option String := none
  diff_preview : Option (List String) := none
  changes_made : Option Bool := none
  old_content : Option String := none
  new_content : Option String := none
  requires_confirmation : Option Bool := none
  error : Option String := none
deriving DecidableEq, Repr

/-- The tail of file_edit once the existing content is known: diff the
split lines and return the preview. -/
def file_edit_preview (file_path old_content new_content : String) : EditResult :=
  let old_lines := pyReadLines old_content
  let new_lines := pyReadLines new_content
  let diff_lines := unified_diff old_lines new_lines
    ("a/" ++ file_path) ("b/" ++ file_path)
  { success := true
    file_path := some file_path
    diff_preview := some diff_lines
    changes_made := some (diff_lines.length > 0)
    old_content := some old_content
    new_content := some new_content
    requires_confirmation := some true }

/-- From songbird/tools/file_operations.py, file_edit: the preview
phase.  It performs no writes, which the embedding records by returning
the file system unchanged in every branch.  (The Python headers use the
basename of the path; the embedding keeps the full path, which no claim
inspects.) -/
def file_edit (fs : FS) (file_path new_content : String) : EditResult × FS :=
  match fsLookup fs file_path with
  | some e =>
      if !e.isFile then
        ({ success := false
           error := some ("Path exists but is not a file: " ++ file_path) }, fs)
      else
        match e.text with
        | none =>
            ({ success := false
               error := some ("Cannot edit binary file: " ++ file_path) }, fs)
        | some old_content => (file_edit_preview file_path old_content new_content, fs)
  | none => (file_edit_preview file_path "" new_content, fs)

/-- Result dictionary of apply_file_edit. -/
structure ApplyResult where
  success : Bool
  file_path : Option String := none
  message : Option String := none
  backup_created : Option Bool := none
  error : Option String := none
deriving DecidableEq, Repr

/-- From songbird/tools/file_operations.py, apply_file_edit: optionally
back up the current content to a .bak sibling, then write the new
content.  A backup read that fails (directory in the way, binary file)
surfaces as the generic error result with the file system untouched.
(Path.with_suffix on the simple names used here appends .bak.) -/
def apply_file_edit (fs : FS) (file_path new_content : String)
    (create_backup : Bool := true) : ApplyResult × FS :=
  let file_existed := (fsLookup fs file_path).isSome
  let newEntry : FileEntry :=
    { isFile := true, size := new_content.utf8ByteSize, text := some new_content }
  let msg := if file_existed then "File updated successfully"
             else "File created successfully"
  let ok : ApplyResult :=
    { success := true
      file_path := some file_path
      message := some msg
      backup_created := some (create_backup && file_existed) }
  match fsLookup fs file_path with
  | some e =>
      if create_backup then
        if e.isFile then
          match e.text with
          | some old =>
              let fs1 := fsSet fs (file_path ++ ".bak")
                { isFile := true, size := e.size, text := some old }
              (ok, fsSet fs1 file_path newEntry)
          | none =>
              ({ success := false
                 error := some ("Error applying file edit: cannot read " ++ file_path) },
               fs)
        else
          ({ success := false
             error := some ("Error applying file edit: cannot read " ++ file_path) },
           fs)
      else (ok, fsSet fs file_path newEntry)
  | none => (ok, fsSet fs file_path newEntry)

/-! ## Conversation orchestrator -/

/-- A tool result dictionary as it crosses the orchestrator; optional
fields model keys that are only sometimes present. -/
structure ToolDict where
  success : Option Bool := none
  message : Option String := none
  error : Option String := none
  file_path : Option String := none
  diff_displayed : Option Bool := none
  diff_preview : Option (List String) := none
  changes_made : Option Bool := none
  old_content : Option String := none
  new_content : Option String := none
  requires_confirmation : Option Bool := none
deriving DecidableEq, Repr

/-- View of a file_edit preview result as a plain dictionary. -/
def EditResult.toDict (r : EditResult) : ToolDict :=
  { success := some r.success
    error := r.error
    file_path := r.file_path
    diff_preview := r.diff_preview
    changes_made := r.changes_made
    old_content := r.old_content
    new_content := r.new_content
    requires_confirmation := r.requires_confirmation }

/-- View of an apply_file_edit result as a plain dictionary. -/
def ApplyResult.toDict (r : ApplyResult) : ToolDict :=
  { success := some r.success
    error := r.error
    file_path := r.file_path
    message := r.message }

/-- The executor wrapper around a tool result, as consumed in
conversation.py: a dictionary with keys success and result. -/
structure Wrapped where
  success : Bool
  result : ToolDict
deriving DecidableEq, Repr

/-- Modelled from the spec: tools/executor.py (ToolExecutor.execute_tool)
is not in the source tree; §4.1 and §6 of the spec give the wrapper shape
as success plus the tool's own result dictionary.  For file_edit the tool
itself raises nothing, so the wrapper mirrors the tool result. -/
def execute_tool_file_edit (fs : FS) (file_path new_content : String) :
    Wrapped × FS :=
  let r := file_edit fs file_path new_content
  ({ success := r.1.success, result := r.1.toDict }, r.2)

/-- The answer of the confirmation prompt: a selection of Yes or No, or
a cancelled prompt (safe_interactive_menu returned None). -/
inductive ConfirmAnswer where
  | yes
  | no
  | cancelled
deriving DecidableEq, Repr

/-- Output of the confirmation-gated file edit: the wrapper handed back
to the chat loop, the resulting file system, and whether apply_file_edit
was invoked. -/
structure HandleEditOut where
  wrapped : Wrapped
  fs : FS
  applied : Bool
deriving DecidableEq, Repr

/-- The branch of _handle_file_edit that applies the confirmed edit. -/
def handle_file_edit_apply (fs : FS) (file_path new_content : String) :
    HandleEditOut :=
  let ar := apply_file_edit fs file_path new_content
  if ar.1.success then
    { wrapped :=
        { success := true
          result :=
            { success := some true
              message := ar.1.message
              file_path := ar.1.file_path
              diff_displayed := some true } }
      fs := ar.2
      applied := true }
  else
    { wrapped := { success := false, result := ar.1.toDict }
      fs := ar.2
      applied := true }

/-- From songbird/conversation.py, ConversationOrchestrator._handle_file_edit:
run the preview phase, short-circuit on preview failure or on a no-change
preview, then gate on SONGBIRD_AUTO_APPLY or the interactive Yes/No menu;
a No or a cancelled prompt records the failure wrapper with message
"Changes cancelled by user" and leaves the file system untouched. -/
def handle_file_edit (fs : FS) (file_path new_content : String)
    (auto_apply : Bool) (answer : ConfirmAnswer) : HandleEditOut :=
  let pre := execute_tool_file_edit fs file_path new_content
  if !pre.1.success then
    { wrapped := pre.1, fs := pre.2, applied := false }
  else if pre.1.result.changes_made ≠ some true then
    { wrapped :=
        { success := true
          result :=
            { success := some true
              message := some "No changes needed - file content is already as requested" } }
      fs := pre.2
      applied := false }
  else if auto_apply then
    handle_file_edit_apply pre.2 file_path new_content
  else
    match answer with
    | .cancelled =>
        { wrapped :=
            { success := false
              result := { success := some false
                          message := some "Changes cancelled by user" } }
          fs := pre.2
          applied := false }
    | .yes => handle_file_edit_apply pre.2 file_path new_content
    | .no =>
        { wrapped :=
            { success := false
              result := { success := some false
                          message := some "Changes cancelled by user" } }
          fs := pre.2
          applied := false }

/-- A tool call in the canonical dictionary format the unified adapter
emits: an id and a function with name and serialized arguments. -/
structure ToolCallRec where
  id : String
  name : String
  arguments : String
deriving DecidableEq, Repr

/-- One transcript entry of the conversation history. -/
structure ChatMessage where
  role : String
  content : String
  tool_calls : List ToolCallRec := []
  tool_call_id : Option String := none
deriving DecidableEq, Repr

/-- The provider response consumed by the chat loop. -/
structure ChatResponseM where
  content : Option String := none
  tool_calls : List ToolCallRec := []
deriving DecidableEq, Repr

/-- What one tool execution contributes to the turn: the wrapper success
flag, the JSON serialization of the recorded result (conversation.py
stores json.dumps of the unwrapped result on success and of the whole
wrapper on failure), and the error string the fallback summary quotes. -/
structure ExecOutcome where
  success : Bool
  serialized : String
  error : String
deriving DecidableEq, Repr

/-- One line of the deterministic fallback summary built when the
follow-up synthesizing call raises. -/
def fallback_status_line (c : ToolCallRec) (r : ExecOutcome) : String :=
  if r.success then
    if c.name == "file_edit" then "✓ File edited successfully"
    else if c.name == "file_create" then "✓ File created successfully"
    else "✓ " ++ c.name ++ " completed"
  else "✗ " ++ c.name ++ " failed: " ++ r.error

/-- The deterministic fallback summary over all tool results. -/
def fallback_status (results : List (ToolCallRec × ExecOutcome)) : String :=
  if results.isEmpty then "Operation completed"
  else String.intercalate "\n" (results.map (fun p => fallback_status_line p.1 p.2))

/-- From songbird/conversation.py, ConversationOrchestrator.chat, as a
transcript transformer (session persistence mirrors the history and is
not modelled separately; argument parsing is folded into the opaque
arguments string).  run_tool abstracts the dispatch through
ToolExecutor.execute_tool and _handle_file_edit; follow_up is the
synthesizing call's content, or none when that call raises and the
deterministic fallback is used. -/
def chatTurn (history : List ChatMessage) (userMsg : String)
    (response : ChatResponseM) (run_tool : ToolCallRec → ExecOutcome)
    (follow_up : Option String) : List ChatMessage :=
  let h1 := history ++ [{ role := "user", content := userMsg }]
  if response.tool_calls.isEmpty then
    h1 ++ [{ role := "assistant", content := response.content.getD "" }]
  else
    let results := response.tool_calls.map (fun c => (c, run_tool c))
    let h2 := h1 ++
      [{ role := "assistant"
         content := response.content.getD ""
         tool_calls := response.tool_calls }]
    let h3 := h2 ++ results.map (fun p =>
      { role := "tool", content := p.2.serialized, tool_call_id := some p.1.id })
    let finalContent :=
      match follow_up with
      | some c => c
      | none => fallback_status results
    h3 ++ [{ role := "assistant", content := finalContent }]

/-! ## LiteLLM adapter -/

/-- The function part of an OpenAI-format tool schema; the parameters
object is kept opaque (only its presence is checked). -/
structure ToolFunctionSchema where
  name : Option String := none
  description : Option String := none
  parameters : Option String := none
deriving DecidableEq, Repr

/-- An OpenAI-format tool schema dictionary. -/
structure ToolSchemaDict where
  type : Option String := none
  function : Option ToolFunctionSchema := none
deriving DecidableEq, Repr

/-- The validation loop inside format_tools_for_provider: each tool is
skipped (continue) when the type key is missing or not "function", the
function key is missing, or the function lacks name or parameters;
surviving tools are appended in order. -/
def format_tools_loop (acc : List ToolSchemaDict) :
    List ToolSchemaDict → List ToolSchemaDict
  | [] => acc
  | t :: ts =>
      match t.type with
      | none => format_tools_loop acc ts
      | some ty =>
          if ty ≠ "function" then format_tools_loop acc ts
          else
            match t.function with
            | none => format_tools_loop acc ts
            | some f =>
                match f.name with
                | none => format_tools_loop acc ts
                | some _ =>
                    match f.parameters with
                    | none => format_tools_loop acc ts
                    | some _ => format_tools_loop (acc ++ [t]) ts

/-- From songbird/llm/litellm_adapter.py,
LiteLLMAdapter.format_tools_for_provider. -/
def format_tools_for_provider (tools : List ToolSchemaDict) : List ToolSchemaDict :=
  if tools.isEmpty then [] else format_tools_loop [] tools

/-- The validity condition in the claim's own words: the tool has
type "function", a function.name, and function.parameters. -/
def specValidTool (t : ToolSchemaDict) : Bool :=
  t.type == some "function" &&
    (match t.function with
     | some f => f.name.isSome && f.parameters.isSome
     | none => false)

/-- The keyword arguments chat_with_messages assembles for the provider
call (adapter kwargs beyond model/messages are not modelled). -/
structure CompletionKwargs where
  model : String
  messages : List ChatMessage
  tools : Option (List ToolSchemaDict) := none
  tool_choice : Option String := none
deriving DecidableEq, Repr

/-- From songbird/llm/litellm_adapter.py, LiteLLMAdapter.chat_with_messages:
the request assembly.  Tools are attached only when the supplied list is
truthy and survives validation non-empty, in which case tool_choice is
set to "auto". -/
def chat_with_messages_kwargs (model : String) (messages : List ChatMessage)
    (tools : Option (List ToolSchemaDict)) : CompletionKwargs :=
  let base : CompletionKwargs := { model := model, messages := messages }
  match tools with
  | none => base
  | some ts =>
      if ts.isEmpty then base
      else
        let validated := format_tools_for_provider ts
        if validated.isEmpty then base
        else { base with tools := some validated, tool_choice := some "auto" }

/-- The provider error categories of the adapter, one per exception
class (LiteLLMAuthenticationError and so on). -/
inductive ProviderErrorKind where
  | auth
  | rateLimit
  | modelErr
  | connection
  | generic
deriving DecidableEq, Repr

/-- A raised Python exception as the classifier sees it: its class name
and its str() message. -/
structure PyException where
  className : String
  message : String
deriving DecidableEq, Repr

/-- From songbird/llm/litellm_adapter.py, LiteLLMAdapter._get_auth_error_help:
the provider-to-remediation table with its fallback. -/
def auth_help_table : List (String × String) :=
  [("openai", "Set OPENAI_API_KEY environment variable. Get your key from: https://platform.openai.com/api-keys"),
   ("anthropic", "Set ANTHROPIC_API_KEY environment variable. Get your key from: https://console.anthropic.com/account/keys"),
   ("claude", "Set ANTHROPIC_API_KEY environment variable. Get your key from: https://console.anthropic.com/account/keys"),
   ("gemini", "Set GEMINI_API_KEY environment variable. Get your key from: https://aistudio.google.com/app/apikey"),
   ("google", "Set GOOGLE_API_KEY environment variable. Get your key from: https://aistudio.google.com/app/apikey"),
   ("openrouter", "Set OPENROUTER_API_KEY environment variable. Get your key from: https://openrouter.ai/keys"),
   ("ollama", "Ensure Ollama is running locally: ollama serve")]

/-- Lookup with default, modelling dict.get. -/
def get_auth_error_help (provider : String) : String :=
  match (auth_help_table.find? (fun p => p.1 == provider)).map (fun p => p.2) with
  | some h => h
  | none => "Check API key configuration for " ++ provider

/-- From songbird/llm/litellm_adapter.py,
LiteLLMAdapter._handle_completion_error: classify the exception by its
class name and lower-cased message and build the contextualized message
of the returned typed error. -/
def handle_completion_error (vendor model_name operation : String)
    (e : PyException) : ProviderErrorKind × String :=
  let error_msg := pyLower e.message
  let context := vendor ++ " " ++ operation
  let cls := pyLower e.className
  if strContainsSub cls "authentication" || strContainsSub cls "auth" then
    (.auth, context ++ ": " ++ get_auth_error_help vendor)
  else if strContainsSub error_msg "authentication" || strContainsSub error_msg "api key"
      || strContainsSub error_msg "unauthorized" || strContainsSub error_msg "401" then
    (.auth, context ++ ": " ++ get_auth_error_help vendor)
  else if strContainsSub error_msg "rate limit" || strContainsSub error_msg "quota"
      || strContainsSub error_msg "too many requests" || strContainsSub error_msg "429" then
    (.rateLimit, context ++ ": Rate limit exceeded for " ++ vendor
      ++ ". Please wait and try again.")
  else if (strContainsSub error_msg "model"
        && (strContainsSub error_msg "not found" || strContainsSub error_msg "not supported"))
      || strContainsSub error_msg "404" then
    (.modelErr, context ++ ": Model '" ++ model_name ++ "' not available for "
      ++ vendor ++ ". Check available models.")
  else if strContainsSub error_msg "connection" || strContainsSub error_msg "timeout"
      || strContainsSub error_msg "network" || strContainsSub error_msg "503" then
    (.connection, context ++ ": Connection failed to " ++ vendor
      ++ ". Check network and service status.")
  else
    (.generic, context ++ ": Unexpected error: " ++ e.message
      ++ ". Check logs for details.")

/-- The authentication patterns of the classifier, over a lower-cased
message. -/
def msgHasAuthPattern (m : String) : Bool :=
  strContainsSub m "authentication" || strContainsSub m "api key"
    || strContainsSub m "unauthorized" || strContainsSub m "401"

/-- The rate-limit patterns of the classifier. -/
def msgHasRatePattern (m : String) : Bool :=
  strContainsSub m "rate limit" || strContainsSub m "quota"
    || strContainsSub m "too many requests" || strContainsSub m "429"

/-- The model-not-found patterns of the classifier. -/
def msgHasModelPattern (m : String) : Bool :=
  (strContainsSub m "model"
    && (strContainsSub m "not found" || strContainsSub m "not supported"))
  || strContainsSub m "404"

/-- The connection patterns of the classifier. -/
def msgHasConnPattern (m : String) : Bool :=
  strContainsSub m "connection" || strContainsSub m "timeout"
    || strContainsSub m "network" || strContainsSub m "503"

/-- The exception-class-name patterns checked before the message. -/
def clsHasAuthPattern (c : String) : Bool :=
  strContainsSub c "authentication" || strContainsSub c "auth"

/-! ## Todo tools -/

/-- A word character in the sense of the regex class backslash-w over
the ASCII contents the todo tool handles. -/
def isWordChar (c : Char) : Bool :=
  c.isAlphanum || c == '_'

/-- Splitting on whitespace runs, modelling Python str.split() with no
arguments: maximal non-whitespace runs, in order. -/
def wordsAux : List Char → List Char → List (List Char)
  | cur, [] => if cur.isEmpty then [] else [cur.reverse]
  | cur, c :: t =>
      if c.isWhitespace then
        if cur.isEmpty then wordsAux [] t else cur.reverse :: wordsAux [] t
      else wordsAux (c :: cur) t

/-- str.split() on a string. -/
def pyWords (s : String) : List String :=
  (wordsAux [] s.toList).map String.mk

/-- Space-separated join of a word list (the collapse step of the
whitespace normalization). -/
def joinWithSpace : List String → String
  | [] => ""
  | [w] => w
  | w :: ws => w ++ " " ++ joinWithSpace ws

/-- Leading-whitespace removal on character lists. -/
def dropLeadingWs : List Char → List Char
  | [] => []
  | c :: t => if c.isWhitespace then dropLeadingWs t else c :: t

/-- Python str.strip(): remove whitespace at both ends. -/
def pyStrip (s : String) : String :=
  String.mk ((dropLeadingWs (dropLeadingWs s.toList).reverse).reverse)

/-- Python str.startswith(p). -/
def pyStartsWith (s p : String) : Bool :=
  listStartsWith p.toList s.toList

/-- Dropping the first n characters of a string (Python s[n:] for
non-negative n within bounds). -/
def pyDrop (s : String) (n : Nat) : String :=
  String.mk (s.toList.drop n)

/-- From songbird/tools/todo_tools.py: the prefixes stripped during
normalization. -/
def prefixes_to_remove : List String :=
  ["todo:", "task:", "step:", "action:", "next:", "now:", "please",
   "need to", "should", "must", "will", "going to", "plan to"]

/-- From songbird/tools/todo_tools.py, _normalize_todo_content:
lower-case and strip, peel the listed prefixes in order, replace
punctuation (non-word, non-space characters) by spaces, and collapse
whitespace runs to single spaces with outer whitespace stripped. -/
def normalize_todo_content (content : String) : String :=
  let n0 := pyStrip (pyLower content)
  let n1 := prefixes_to_remove.foldl
    (fun n p => if pyStartsWith n p then pyStrip (pyDrop n p.length) else n) n0
  let mapped := n1.toList.map
    (fun c => if isWordChar c || c.isWhitespace then c else ' ')
  joinWithSpace ((wordsAux [] mapped).map String.mk)

/-- From songbird/tools/todo_tools.py, _calculate_content_similarity:
1 for equal normalizations, else the maximum of the Jaccard similarity
of the word sets and 0.9 times the subset overlap.  Python sets are
modelled as deduplicated word lists; the intersection and union
cardinalities are computed list-wise and agree with the set ones.
Arithmetic is exact rational; at the boundary inputs used below the
Python float evaluation agrees exactly (the products involved round to
0.75). -/
def calculate_content_similarity (content1 content2 : String) : Rat :=
  let norm1 := normalize_todo_content content1
  let norm2 := normalize_todo_content content2
  if norm1 = norm2 then 1
  else
    let words1 := (pyWords norm1).dedup
    let words2 := (pyWords norm2).dedup
    if words1.isEmpty || words2.isEmpty then 0
    else
      let interCard := (words1.filter (fun w => words2.contains w)).length
      let uniCard :=
        words1.length + (words2.filter (fun w => !words1.contains w)).length
      let jaccard : Rat := (interCard : Rat) / (uniCard : Rat)
      let subset_sim : Rat :=
        (interCard : Rat) / ((min words1.length words2.length : Nat) : Rat)
      max jaccard (subset_sim * (9 / 10))

/-- A stored todo item (timestamps and session ids, which no claim
touches, are omitted). -/
structure TodoRec where
  id : String
  content : String
  status : String := "pending"
  priority : String := "medium"
deriving DecidableEq, Repr

/-- What the no-id branch of todo_write decides for one entry. -/
inductive UpsertAction where
  | update (id : String)
  | create
deriving DecidableEq, Repr

/-- The first existing todo whose normalized content equals the entry's
normalized content (the exact-match loop of todo_write). -/
def find_exact_match (content : String) (existing : List TodoRec) : Option TodoRec :=
  existing.find? (fun e =>
    normalize_todo_content e.content == normalize_todo_content content)

/-- The best-match loop of todo_write: scan the existing todos keeping
the first maximum of the similarities that strictly exceed 0.75. -/
def best_match_loop (content : String) :
    List TodoRec → Option (TodoRec × Rat) → Option (TodoRec × Rat)
  | [], acc => acc
  | e :: t, acc =>
      let sim := calculate_content_similarity content e.content
      let best := match acc with
        | none => (0 : Rat)
        | some p => p.2
      if sim > 3 / 4 ∧ sim > best then best_match_loop content t (some (e, sim))
      else best_match_loop content t acc

/-- From songbird/tools/todo_tools.py, todo_write, the branch for an
entry without id: update the exact normalized match if any, else the
best similar todo above the threshold, else create a new todo. -/
def todo_write_match (content : String) (existing : List TodoRec) : UpsertAction :=
  match find_exact_match content existing with
  | some t => .update t.id
  | none =>
      match best_match_loop content existing none with
      | some p => .update p.1.id
      | none => .create

/-- The effect of one no-id todo_write entry on the stored list:
an update rewrites the matched todo in place through
TodoManager.update_todo; a create appends a fresh todo (new_id models
the generated uuid) through TodoManager.add_todo. -/
def apply_todo_write_entry (todos : List TodoRec)
    (content status priority new_id : String) : List TodoRec :=
  match todo_write_match content todos with
  | .update i =>
      todos.map (fun t =>
        if t.id == i then
          { t with content := content, status := status, priority := priority }
        else t)
  | .create =>
      todos ++ [{ id := new_id, content := content, status := status, priority := priority }]

/-! ## Theorems: shell execution -/

/-- C1: the destructive-pattern denylist is not enforced by shell_exec.
The command "rm -rf /" matches the denylist (is_command_safe rejects
it), yet shell_exec — which never consults is_command_safe — spawns a
subprocess for it and reports success from the exit code alone. -/
theorem shell_exec_denylist_not_enforced :
    is_command_safe "rm -rf /" = false ∧
    (shell_exec "rm -rf /" none 30 4096
      ⟨"/home/user", [], .completed 0 [] []⟩).2.spawned = true ∧
    (shell_exec "rm -rf /" none 30 4096
      ⟨"/home/user", [], .completed 0 [] []⟩).1.success = true := by
  refine ⟨?_, ?_, ?_⟩ <;> decide

/-- C6 counterexample: the result of a timed-out command carries no
exit_code, stdout or stderr keys, so not every shell_exec result
contains all of the claimed fields. -/
theorem shell_exec_timeout_missing_fields :
    (shell_exec "sleep 99" none 30 4096 ⟨"/w", [], .timedOut⟩).1.exit_code = none ∧
    (shell_exec "sleep 99" none 30 4096 ⟨"/w", [], .timedOut⟩).1.stdout = none ∧
    (shell_exec "sleep 99" none 30 4096 ⟨"/w", [], .timedOut⟩).1.stderr = none := by
  exact ⟨rfl, rfl, rfl⟩

/-- C6 (amended): a command that completes within the timeout yields a
result with exit_code, stdout, stderr, command and working_dir all
present, stdout and stderr capped at max_output_size characters with
output_truncated set exactly when a stream exceeded the cap; a command
that exceeds the timeout has its subprocess killed and yields a failure
result carrying error, command and working_dir. -/
theorem shell_exec_result_shape (command : String) (t m : Nat) (cwd : String)
    (dirs : List String) (ec : Int) (out err : List Char) :
    ((shell_exec command none t m ⟨cwd, dirs, .completed ec out err⟩).1.exit_code = some ec ∧
     (shell_exec command none t m ⟨cwd, dirs, .completed ec out err⟩).1.stdout =
       some (if out.length > m then out.take m else out) ∧
     (shell_exec command none t m ⟨cwd, dirs, .completed ec out err⟩).1.stderr =
       some (if err.length > m then err.take m else err) ∧
     (shell_exec command none t m ⟨cwd, dirs, .completed ec out err⟩).1.command = some command ∧
     (shell_exec command none t m ⟨cwd, dirs, .completed ec out err⟩).1.working_dir = some cwd ∧
     (if out.length > m then out.take m else out).length ≤ m ∧
     (if err.length > m then err.take m else err).length ≤ m ∧
     (shell_exec command none t m ⟨cwd, dirs, .completed ec out err⟩).1.output_truncated =
       (if out.length > m || err.length > m then some true else none)) ∧
    ((shell_exec command none t m ⟨cwd, dirs, .timedOut⟩).2.spawned = true ∧
     (shell_exec command none t m ⟨cwd, dirs, .timedOut⟩).2.killed = true ∧
     (shell_exec command none t m ⟨cwd, dirs, .timedOut⟩).1.success = false ∧
     (shell_exec command none t m ⟨cwd, dirs, .timedOut⟩).1.error =
       some ("Command timed out after " ++ toString t ++ " seconds") ∧
     (shell_exec command none t m ⟨cwd, dirs, .timedOut⟩).1.command = some command ∧
     (shell_exec command none t m ⟨cwd, dirs, .timedOut⟩).1.working_dir = some cwd) := by
  constructor
  · refine ⟨rfl, rfl, rfl, rfl, rfl, ?_, ?_, rfl⟩
    · split
      · simp [List.length_take]
      · omega
    · split
      · simp [List.length_take]
      · omega
  · exact ⟨rfl, rfl, rfl, rfl, rfl, rfl⟩

/-- C10: for a command that completes within the timeout, the success
flag is exactly exit code zero, and on failure the error field names the
exit code. -/
theorem shell_exec_success_iff_exit_zero (command : String) (t m : Nat)
    (cwd : String) (dirs : List String) (ec : Int) (out err : List Char) :
    (shell_exec command none t m ⟨cwd, dirs, .completed ec out err⟩).1.success = (ec == 0) ∧
    (shell_exec command none t m ⟨cwd, dirs, .completed ec out err⟩).1.error =
      (if ec == 0 then none
       else some ("Command failed with exit code " ++ toString ec)) := by
  exact ⟨rfl, rfl⟩

/-! ## Theorems: file operations -/

theorem pyLinesChars_join (l : List Char) : (pyLinesChars l).flatten = l := by
  induction l with
  | nil => rfl
  | cons c t ih =>
      by_cases hc : c = '\n'
      · simp [pyLinesChars, hc] at ih ⊢
        exact ih
      · rcases h : pyLinesChars t with _ | ⟨w, ws⟩
        · have : t = [] := by simpa [h] using ih.symm
          simp [pyLinesChars, hc, h, this]
        · have : w ++ ws.flatten = t := by simpa [h] using ih
          simp [pyLinesChars, hc, h, this]

theorem pyLinesChars_inj {a b : List Char}
    (h : pyLinesChars a = pyLinesChars b) : a = b := by
  have := congrArg List.flatten h
  simpa [pyLinesChars_join] using this

theorem pyReadLines_inj {a b : String}
    (h : pyReadLines a = pyReadLines b) : a = b := by
  have hcomp : String.toList ∘ String.mk = id := funext fun _ => rfl
  have h2 : pyLinesChars a.toList = pyLinesChars b.toList := by
    have := congrArg (List.map String.toList) h
    simpa [pyReadLines, List.map_map, hcomp] using this
  have h3 : a.toList = b.toList := pyLinesChars_inj h2
  cases a
  cases b
  exact congrArg String.mk h3

theorem unified_diff_eq_nil_iff (o n : List String) (f t : String) :
    unified_diff o n f t = [] ↔ o = n := by
  unfold unified_diff
  split
  · simpa
  · simp_all

theorem file_edit_preview_changes (p old new : String) :
    (file_edit_preview p old new).changes_made = some true ↔ old ≠ new := by
  have hiff : unified_diff (pyReadLines old) (pyReadLines new)
      ("a/" ++ p) ("b/" ++ p) = [] ↔ old = new := by
    rw [unified_diff_eq_nil_iff]
    constructor
    · exact fun h => pyReadLines_inj h
    · intro h
      rw [h]
  simp only [file_edit_preview, Option.some.injEq]
  constructor
  · intro h hab
    have : unified_diff (pyReadLines old) (pyReadLines new)
        ("a/" ++ p) ("b/" ++ p) = [] := hiff.mpr hab
    simp [this] at h
  · intro h
    have hne : unified_diff (pyReadLines old) (pyReadLines new)
        ("a/" ++ p) ("b/" ++ p) ≠ [] := fun hnil => h (hiff.mp hnil)
    have : 0 < (unified_diff (pyReadLines old) (pyReadLines new)
        ("a/" ++ p) ("b/" ++ p)).length := List.length_pos.mpr hne
    simp [this]

/-- C9: the preview phase of file_edit on an existing utf-8 file
succeeds, reports changes_made exactly when the new content differs from
the current content, and leaves the file system untouched. -/
theorem file_edit_preview_phase (fs : FS) (p new old : String) (e : FileEntry)
    (hl : fsLookup fs p = some e) (hf : e.isFile = true) (ht : e.text = some old) :
    (file_edit fs p new).1.success = true ∧
    ((file_edit fs p new).1.changes_made = some true ↔ new ≠ old) ∧
    (file_edit fs p new).2 = fs := by
  have hrun : file_edit fs p new = (file_edit_preview p old new, fs) := by
    simp [file_edit, hl, hf, ht]
  refine ⟨by simp [hrun, file_edit_preview], ?_, by simp [hrun]⟩
  rw [hrun]
  simpa [ne_comm] using file_edit_preview_changes p old new

/-- C9 witness. -/
theorem file_edit_preview_phase_witness :
    (fsLookup [("a.txt", { isFile := true, size := 4, text := some "a\nb\n" })] "a.txt"
        = some { isFile := true, size := 4, text := some "a\nb\n" }) ∧
    ((file_edit [("a.txt", { isFile := true, size := 4, text := some "a\nb\n" })]
        "a.txt" "a\nc\n").1.success = true ∧
     ((file_edit [("a.txt", { isFile := true, size := 4, text := some "a\nb\n" })]
        "a.txt" "a\nc\n").1.changes_made = some true ↔ "a\nc\n" ≠ "a\nb\n") ∧
     (file_edit [("a.txt", { isFile := true, size := 4, text := some "a\nb\n" })]
        "a.txt" "a\nc\n").2
        = [("a.txt", { isFile := true, size := 4, text := some "a\nb\n" })]) :=
  ⟨by decide,
   file_edit_preview_phase
     [("a.txt", { isFile := true, size := 4, text := some "a\nb\n" })]
     "a.txt" "a\nc\n" "a\nb\n" { isFile := true, size := 4, text := some "a\nb\n" }
     (by decide) (by decide) (by decide)⟩

/-- C8: file_read rejects files over 1 MiB and non-utf-8 files with an
error result; an existing regular utf-8 file within the limit is read
successfully with the selected content and line metadata; and every
failure result of file_read carries a human-readable error (the function
is total, so no exception escapes the tool boundary). -/
theorem file_read_spec (fs : FS) (p : String) (e : FileEntry)
    (lines start_line : Option Int)
    (hl : fsLookup fs p = some e) (hf : e.isFile = true) :
    (1024 * 1024 < e.size →
      file_read fs p lines start_line =
        { success := false, error := some ("File too large (>1MB): " ++ p) }) ∧
    (e.size ≤ 1024 * 1024 → e.text = none →
      file_read fs p lines start_line =
        { success := false
          error := some ("Cannot read file (binary or encoding issue): " ++ p) }) ∧
    (∀ content, e.size ≤ 1024 * 1024 → e.text = some content →
      (file_read fs p lines start_line).success = true ∧
      (file_read fs p lines start_line).content =
        some (String.join (file_read_select (pyReadLines content) lines start_line)) ∧
      (file_read fs p lines start_line).total_lines =
        some (pyReadLines content).length ∧
      (file_read fs p lines start_line).lines_returned =
        some (file_read_select (pyReadLines content) lines start_line).length) ∧
    (∀ (fs2 : FS) (p2 : String) (l2 s2 : Option Int),
      (file_read fs2 p2 l2 s2).success = false →
      ((file_read fs2 p2 l2 s2).error).isSome = true) := by
  refine ⟨?_, ?_, ?_, ?_⟩
  · intro hs
    simp [file_read, hl, hf, hs]
  · intro hs htxt
    simp [file_read, hl, hf, htxt, Nat.not_lt.mpr hs]
  · intro content hs htxt
    simp [file_read, hl, hf, htxt, Nat.not_lt.mpr hs]
  · intro fs2 p2 l2 s2
    unfold file_read
    rcases fsLookup fs2 p2 with _ | e2
    · simp
    · by_cases h2 : e2.isFile
      · by_cases hsz : e2.size > 1024 * 1024
        · simp [h2, hsz]
        · rcases htxt : e2.text with _ | c
          · simp [h2, hsz, htxt]
          · simp [h2, hsz, htxt]
      · simp [h2]

/-- C8 witness. -/
theorem file_read_spec_witness :
    (fsLookup [("a.txt", { isFile := true, size := 7, text := some "a\nb\ncd\n" })] "a.txt"
        = some { isFile := true, size := 7, text := some "a\nb\ncd\n" }) ∧
    (7 ≤ 1024 * 1024) ∧
    (file_read [("a.txt", { isFile := true, size := 7, text := some "a\nb\ncd\n" })]
        "a.txt" (some 2) none).success = true ∧
    (file_read [("a.txt", { isFile := true, size := 7, text := some "a\nb\ncd\n" })]
        "a.txt" (some 2) none).total_lines = some 3 ∧
    (file_read [("a.txt", { isFile := true, size := 7, text := some "a\nb\ncd\n" })]
        "a.txt" (some 2) none).lines_returned = some 2 := by
  have h := (file_read_spec
      [("a.txt", { isFile := true, size := 7, text := some "a\nb\ncd\n" })]
      "a.txt" { isFile := true, size := 7, text := some "a\nb\ncd\n" }
      (some 2) none (by decide) (by decide)).2.2.1
      "a\nb\ncd\n" (by decide) (by decide)
  refine ⟨by decide, by decide, h.1, ?_, ?_⟩
  · rw [h.2.2.1]
    decide
  · rw [h.2.2.2]
    decide

/-- C3: when the user declines (or cancels) the confirmation prompt of
a file_edit whose preview shows changes, the recorded wrapper is a
failure whose result carries the message "Changes cancelled by user",
apply_file_edit is never invoked, and the file system is unchanged. -/
theorem file_edit_declined (fs : FS) (p new old : String) (e : FileEntry)
    (answer : ConfirmAnswer)
    (hl : fsLookup fs p = some e) (hf : e.isFile = true) (ht : e.text = some old)
    (hne : new ≠ old) (hans : answer ≠ .yes) :
    (handle_file_edit fs p new false answer).wrapped.success = false ∧
    (handle_file_edit fs p new false answer).wrapped.result.success = some false ∧
    (handle_file_edit fs p new false answer).wrapped.result.message =
      some "Changes cancelled by user" ∧
    (handle_file_edit fs p new false answer).fs = fs ∧
    (handle_file_edit fs p new false answer).applied = false := by
  have hrun : file_edit fs p new = (file_edit_preview p old new, fs) := by
    simp [file_edit, hl, hf, ht]
  have hcm : (file_edit_preview p old new).changes_made = some true :=
    (file_edit_preview_changes p old new).mpr (fun h => hne h.symm)
  have hsucc : (file_edit_preview p old new).success = true := by
    simp [file_edit_preview]
  have hout : handle_file_edit fs p new false answer =
      { wrapped :=
          { success := false
            result := { success := some false
                        message := some "Changes cancelled by user" } }
        fs := fs
        applied := false } := by
    unfold handle_file_edit execute_tool_file_edit
    rw [hrun]
    simp only [hsucc, EditResult.toDict, hcm]
    cases answer with
    | yes => exact absurd rfl hans
    | no => simp
    | cancelled => simp
  simp [hout]

/-- C3 witness. -/
theorem file_edit_declined_witness :
    (fsLookup [("foo.txt", { isFile := true, size := 4, text := some "a\nb\n" })] "foo.txt"
        = some { isFile := true, size := 4, text := some "a\nb\n" }) ∧
    ("a\nc\n" ≠ "a\nb\n") ∧
    (handle_file_edit [("foo.txt", { isFile := true, size := 4, text := some "a\nb\n" })]
        "foo.txt" "a\nc\n" false .no).wrapped.success = false ∧
    (handle_file_edit [("foo.txt", { isFile := true, size := 4, text := some "a\nb\n" })]
        "foo.txt" "a\nc\n" false .no).wrapped.result.message =
      some "Changes cancelled by user" ∧
    (handle_file_edit [("foo.txt", { isFile := true, size := 4, text := some "a\nb\n" })]
        "foo.txt" "a\nc\n" false .no).fs
      = [("foo.txt", { isFile := true, size := 4, text := some "a\nb\n" })] ∧
    (handle_file_edit [("foo.txt", { isFile := true, size := 4, text := some "a\nb\n" })]
        "foo.txt" "a\nc\n" false .no).applied = false := by
  have h := file_edit_declined
      [("foo.txt", { isFile := true, size := 4, text := some "a\nb\n" })]
      "foo.txt" "a\nc\n" "a\nb\n"
      { isFile := true, size := 4, text := some "a\nb\n" } .no
      (by decide) (by decide) (by decide) (by decide) (by decide)
  exact ⟨by decide, by decide, h.1, h.2.2.1, h.2.2.2.1, h.2.2.2.2⟩

/-! ## Theorems: conversation transcript -/

/-- C2: in a turn whose provider response carries tool calls, the
history after the turn is exactly the old history, the user message, the
assistant message recording the tool calls, then one tool message per
call — with tool_call_id fields matching the call ids in emission
order — and finally the closing assistant message. -/
theorem chat_turn_tool_correspondence (history : List ChatMessage)
    (userMsg : String) (response : ChatResponseM)
    (run_tool : ToolCallRec → ExecOutcome) (follow_up : Option String)
    (hne : response.tool_calls ≠ []) :
    chatTurn history userMsg response run_tool follow_up =
      history ++ [{ role := "user", content := userMsg }]
        ++ [{ role := "assistant", content := response.content.getD ""
              tool_calls := response.tool_calls }]
        ++ response.tool_calls.map (fun c =>
             { role := "tool", content := (run_tool c).serialized
               tool_call_id := some c.id })
        ++ [{ role := "assistant"
              content :=
                match follow_up with
                | some c => c
                | none => fallback_status
                    (response.tool_calls.map (fun c => (c, run_tool c))) }] ∧
    (response.tool_calls.map (fun c =>
       ({ role := "tool", content := (run_tool c).serialized
          tool_call_id := some c.id } : ChatMessage))).map
        (fun mm => mm.tool_call_id)
      = response.tool_calls.map (fun c => some c.id) ∧
    (response.tool_calls.map (fun c =>
       ({ role := "tool", content := (run_tool c).serialized
          tool_call_id := some c.id } : ChatMessage))).length
      = response.tool_calls.length ∧
    (∀ mm ∈ response.tool_calls.map (fun c =>
       ({ role := "tool", content := (run_tool c).serialized
          tool_call_id := some c.id } : ChatMessage)), mm.role = "tool") := by
  have hemp : response.tool_calls.isEmpty = false := by
    simpa [List.isEmpty_iff] using hne
  refine ⟨?_, ?_, ?_, ?_⟩
  · simp [chatTurn, hemp, List.map_map, Function.comp, List.append_assoc]
  · simp [List.map_map, Function.comp]
  · simp
  · intro mm hmm
    simp at hmm
    obtain ⟨c, _, hc⟩ := hmm
    simp [← hc]

/-- C2 witness. -/
theorem chat_turn_tool_correspondence_witness :
    (([⟨"c1", "file_read", "arg1"⟩, ⟨"c2", "shell_exec", "arg2"⟩] :
        List ToolCallRec) ≠ []) ∧
    chatTurn [] "hello"
        { content := some "working"
          tool_calls := [⟨"c1", "file_read", "arg1"⟩, ⟨"c2", "shell_exec", "arg2"⟩] }
        (fun c => { success := true, serialized := "r-" ++ c.id, error := "" })
        (some "done") =
      [{ role := "user", content := "hello" },
       { role := "assistant", content := "working"
         tool_calls := [⟨"c1", "file_read", "arg1"⟩, ⟨"c2", "shell_exec", "arg2"⟩] },
       { role := "tool", content := "r-c1", tool_call_id := some "c1" },
       { role := "tool", content := "r-c2", tool_call_id := some "c2" },
       { role := "assistant", content := "done" }] := by
  constructor
  · decide
  · have h := (chat_turn_tool_correspondence [] "hello"
        { content := some "working"
          tool_calls := [⟨"c1", "file_read", "arg1"⟩, ⟨"c2", "shell_exec", "arg2"⟩] }
        (fun c => { success := true, serialized := "r-" ++ c.id, error := "" })
        (some "done") (by decide)).1
    rw [h]
    decide

/-! ## Theorems: adapter tool validation and dispatch -/

theorem format_tools_loop_eq (ts : List ToolSchemaDict) :
    ∀ acc, format_tools_loop acc ts = acc ++ ts.filter specValidTool := by
  induction ts with
  | nil => intro acc; simp [format_tools_loop]
  | cons t ts ih =>
      intro acc
      rcases hty : t.type with _ | ty
      · simp [format_tools_loop, hty, ih, specValidTool]
      · by_cases hfn : ty = "function"
        · subst hfn
          rcases hfu : t.function with _ | f
          · simp [format_tools_loop, hty, hfu, ih, specValidTool]
          · rcases hn : f.name with _ | nm
            · simp [format_tools_loop, hty, hfu, hn, ih, specValidTool]
            · rcases hp : f.parameters with _ | pr
              · simp [format_tools_loop, hty, hfu, hn, hp, ih, specValidTool]
              · simp [format_tools_loop, hty, hfu, hn, hp, ih, specValidTool]
        · simp [format_tools_loop, hty, hfn, ih, specValidTool]

/-- C4 counterexample: a non-empty tool list whose only tool is invalid
is dropped entirely, and the request then carries neither tools nor
tool_choice — so a non-empty supplied list does not guarantee
tool_choice = "auto". -/
theorem tools_all_dropped_no_tool_choice :
    (([({} : ToolSchemaDict)] : List ToolSchemaDict) ≠ []) ∧
    (chat_with_messages_kwargs "openai/gpt-4o" [] (some [{}])).tool_choice = none ∧
    (chat_with_messages_kwargs "openai/gpt-4o" [] (some [{}])).tools = none := by
  refine ⟨by decide, by decide, by decide⟩

/-- C4 (amended): format_tools_for_provider keeps exactly the
order-preserved sublist of tools with type "function", a function.name
and function.parameters; when the validated sublist is non-empty it is
sent with tool_choice = "auto", and when every supplied tool is dropped
the request carries neither tools nor tool_choice. -/
theorem tools_validation_and_dispatch (model : String)
    (messages : List ChatMessage) (ts : List ToolSchemaDict) :
    format_tools_for_provider ts = ts.filter specValidTool ∧
    (format_tools_for_provider ts).Sublist ts ∧
    (ts.filter specValidTool ≠ [] →
      (chat_with_messages_kwargs model messages (some ts)).tools
          = some (ts.filter specValidTool) ∧
      (chat_with_messages_kwargs model messages (some ts)).tool_choice
          = some "auto") ∧
    (ts.filter specValidTool = [] →
      (chat_with_messages_kwargs model messages (some ts)).tools = none ∧
      (chat_with_messages_kwargs model messages (some ts)).tool_choice = none) := by
  have hfmt : format_tools_for_provider ts = ts.filter specValidTool := by
    unfold format_tools_for_provider
    by_cases h : ts.isEmpty
    · rw [List.isEmpty_iff] at h
      simp [h]
    · simp [h, format_tools_loop_eq]
  refine ⟨hfmt, hfmt ▸ List.filter_sublist ts, ?_, ?_⟩
  · intro hval
    have hts : ts ≠ [] := by
      intro h
      subst h
      exact hval rfl
    have hemp : ts.isEmpty = false := by simpa [List.isEmpty_iff] using hts
    constructor <;>
      simp [chat_with_messages_kwargs, hemp, hfmt, List.isEmpty_iff, hval]
  · intro hval
    by_cases hts : ts = []
    · subst hts
      exact ⟨rfl, rfl⟩
    · have hemp : ts.isEmpty = false := by simpa [List.isEmpty_iff] using hts
      constructor <;>
        simp [chat_with_messages_kwargs, hemp, hfmt, List.isEmpty_iff, hval]

/-- C4 witness. -/
theorem tools_validation_and_dispatch_witness :
    (([{ type := some "function"
         function := some { name := some "file_read", parameters := some "obj" } },
       ({} : ToolSchemaDict)] : List ToolSchemaDict).filter specValidTool ≠ []) ∧
    (chat_with_messages_kwargs "openai/gpt-4o" []
        (some [{ type := some "function"
                 function := some { name := some "file_read", parameters := some "obj" } },
               {}])).tools
      = some [{ type := some "function"
                function := some { name := some "file_read", parameters := some "obj" } }] ∧
    (chat_with_messages_kwargs "openai/gpt-4o" []
        (some [{ type := some "function"
                 function := some { name := some "file_read", parameters := some "obj" } },
               {}])).tool_choice = some "auto" := by
  have h := (tools_validation_and_dispatch "openai/gpt-4o" []
      [{ type := some "function"
         function := some { name := some "file_read", parameters := some "obj" } },
       {}]).2.2.1 (by decide)
  refine ⟨by decide, ?_, h.2⟩
  rw [h.1]
  decide

/-! ## Theorems: provider error classification -/

theorem listStartsWith_nil (pat : List Char)
    (h : listStartsWith pat [] = true) : pat = [] := by
  cases pat with
  | nil => rfl
  | cons a t => simp [listStartsWith] at h

theorem listStartsWith_append (p r : List Char) :
    listStartsWith p (p ++ r) = true := by
  induction p with
  | nil => rfl
  | cons a t ih => simpa [listStartsWith] using ih

theorem listStartsWith_extend {pat s : List Char} (t : List Char)
    (h : listStartsWith pat s = true) : listStartsWith pat (s ++ t) = true := by
  induction pat generalizing s with
  | nil => rfl
  | cons a as ih =>
      cases s with
      | nil => simp [listStartsWith] at h
      | cons b bs =>
          simp [listStartsWith] at h ⊢
          exact ⟨h.1, ih h.2⟩

theorem listContainsSub_nil_pat (s : List Char) :
    listContainsSub s [] = true := by
  cases s with
  | nil => rfl
  | cons a t => simp [listContainsSub, listStartsWith]

theorem listContainsSub_of_startsWith {s pat : List Char}
    (h : listStartsWith pat s = true) : listContainsSub s pat = true := by
  cases s with
  | nil =>
      have := listStartsWith_nil pat h
      simp [listContainsSub, this]
  | cons a t => simp [listContainsSub, h]

theorem listContainsSub_append_right (xs ys : List Char) :
    listContainsSub (xs ++ ys) ys = true := by
  induction xs with
  | nil =>
      have := listStartsWith_append ys []
      rw [List.append_nil] at this
      simpa using listContainsSub_of_startsWith this
  | cons a xs ih => simp [listContainsSub, ih]

theorem listContainsSub_extend {s pat : List Char} (t : List Char)
    (h : listContainsSub s pat = true) : listContainsSub (s ++ t) pat = true := by
  induction s with
  | nil =>
      simp [listContainsSub] at h
      simp [h, listContainsSub_nil_pat]
  | cons a s ih =>
      simp [listContainsSub] at h ⊢
      rcases h with h | h
      · exact Or.inl (listStartsWith_extend t h)
      · exact Or.inr (ih h)

theorem listContainsSub_pref (p r : List Char) :
    listContainsSub (p ++ r) p = true := by
  cases p with
  | nil => simpa using listContainsSub_nil_pat r
  | cons a t =>
      simp only [List.cons_append, listContainsSub]
      have : listStartsWith (a :: t) ((a :: t) ++ r) = true :=
        listStartsWith_append (a :: t) r
      simp only [List.cons_append] at this
      simp [this]

theorem string_data_append (a b : String) : (a ++ b).toList = a.toList ++ b.toList := by
  cases a
  cases b
  rfl

theorem string_append_assoc (a b c : String) : (a ++ b) ++ c = a ++ (b ++ c) := by
  cases a
  cases b
  cases c
  exact congrArg String.mk (List.append_assoc _ _ _)

theorem strContainsSub_append_right (a b : String) :
    strContainsSub (a ++ b) b = true := by
  unfold strContainsSub
  rw [string_data_append]
  exact listContainsSub_append_right a.toList b.toList

theorem strContainsSub_extend (a t : String) (pat : String)
    (h : strContainsSub a pat = true) : strContainsSub (a ++ t) pat = true := by
  unfold strContainsSub at h ⊢
  rw [string_data_append]
  exact listContainsSub_extend t.toList h

theorem strContainsSub_pref (a b : String) :
    strContainsSub (a ++ b) a = true := by
  unfold strContainsSub
  rw [string_data_append]
  exact listContainsSub_pref a.toList b.toList

/-- C7: the error classifier maps authentication-pattern messages to the
authentication kind, rate-limit patterns to the rate-limit kind,
model-not-found patterns to the model kind, connection patterns to the
connection kind, and everything else to the generic kind — following
the cascade order of the checks — and every classified message carries
the provider name together with the branch's remediation hint. -/
theorem provider_error_classification (vendor model_name operation : String)
    (e : PyException) :
    (msgHasAuthPattern (pyLower e.message) = true →
      (handle_completion_error vendor model_name operation e).1 = .auth ∧
      strContainsSub (handle_completion_error vendor model_name operation e).2
        (get_auth_error_help vendor) = true ∧
      strContainsSub (handle_completion_error vendor model_name operation e).2
        vendor = true) ∧
    (clsHasAuthPattern (pyLower e.className) = false →
     msgHasAuthPattern (pyLower e.message) = false →
     msgHasRatePattern (pyLower e.message) = true →
      (handle_completion_error vendor model_name operation e).1 = .rateLimit ∧
      strContainsSub (handle_completion_error vendor model_name operation e).2
        ("Rate limit exceeded for " ++ vendor ++ ". Please wait and try again.") = true ∧
      strContainsSub (handle_completion_error vendor model_name operation e).2
        vendor = true) ∧
    (clsHasAuthPattern (pyLower e.className) = false →
     msgHasAuthPattern (pyLower e.message) = false →
     msgHasRatePattern (pyLower e.message) = false →
     msgHasModelPattern (pyLower e.message) = true →
      (handle_completion_error vendor model_name operation e).1 = .modelErr ∧
      strContainsSub (handle_completion_error vendor model_name operation e).2
        ("Model '" ++ model_name ++ "' not available for " ++ vendor
          ++ ". Check available models.") = true ∧
      strContainsSub (handle_completion_error vendor model_name operation e).2
        vendor = true) ∧
    (clsHasAuthPattern (pyLower e.className) = false →
     msgHasAuthPattern (pyLower e.message) = false →
     msgHasRatePattern (pyLower e.message) = false →
     msgHasModelPattern (pyLower e.message) = false →
     msgHasConnPattern (pyLower e.message) = true →
      (handle_completion_error vendor model_name operation e).1 = .connection ∧
      strContainsSub (handle_completion_error vendor model_name operation e).2
        ("Connection failed to " ++ vendor ++ ". Check network and service status.") = true ∧
      strContainsSub (handle_completion_error vendor model_name operation e).2
        vendor = true) ∧
    (clsHasAuthPattern (pyLower e.className) = false →
     msgHasAuthPattern (pyLower e.message) = false →
     msgHasRatePattern (pyLower e.message) = false →
     msgHasModelPattern (pyLower e.message) = false →
     msgHasConnPattern (pyLower e.message) = false →
      (handle_completion_error vendor model_name operation e).1 = .generic ∧
      strContainsSub (handle_completion_error vendor model_name operation e).2
        vendor = true) := by
  have hvendor : ∀ tail : String,
      strContainsSub (vendor ++ " " ++ operation ++ ": " ++ tail) vendor = true := by
    intro tail
    have h1 : strContainsSub (vendor ++ " ") vendor = true := strContainsSub_pref vendor " "
    have h2 := strContainsSub_extend (vendor ++ " ") operation vendor h1
    have h3 := strContainsSub_extend (vendor ++ " " ++ operation) ": " vendor h2
    exact strContainsSub_extend (vendor ++ " " ++ operation ++ ": ") tail vendor h3
  have htail : ∀ tail : String,
      strContainsSub (vendor ++ " " ++ operation ++ ": " ++ tail) tail = true := by
    intro tail
    exact strContainsSub_append_right (vendor ++ " " ++ operation ++ ": ") tail
  have hmsg_rate : vendor ++ " " ++ operation ++ ": Rate limit exceeded for "
        ++ vendor ++ ". Please wait and try again."
      = vendor ++ " " ++ operation ++ ": "
        ++ ("Rate limit exceeded for " ++ vendor ++ ". Please wait and try again.") := by
    have hlit : (": Rate limit exceeded for " : String)
        = ": " ++ "Rate limit exceeded for " := rfl
    rw [hlit]
    simp only [string_append_assoc]
  have hmsg_model : vendor ++ " " ++ operation ++ ": Model '" ++ model_name
        ++ "' not available for " ++ vendor ++ ". Check available models."
      = vendor ++ " " ++ operation ++ ": "
        ++ ("Model '" ++ model_name ++ "' not available for " ++ vendor
            ++ ". Check available models.") := by
    have hlit : (": Model '" : String) = ": " ++ "Model '" := rfl
    rw [hlit]
    simp only [string_append_assoc]
  have hmsg_conn : vendor ++ " " ++ operation ++ ": Connection failed to "
        ++ vendor ++ ". Check network and service status."
      = vendor ++ " " ++ operation ++ ": "
        ++ ("Connection failed to " ++ vendor
            ++ ". Check network and service status.") := by
    have hlit : (": Connection failed to " : String)
        = ": " ++ "Connection failed to " := rfl
    rw [hlit]
    simp only [string_append_assoc]
  have hmsg_gen : vendor ++ " " ++ operation ++ ": Unexpected error: "
        ++ e.message ++ ". Check logs for details."
      = vendor ++ " " ++ operation ++ ": "
        ++ ("Unexpected error: " ++ e.message ++ ". Check logs for details.") := by
    have hlit : (": Unexpected error: " : String) = ": " ++ "Unexpected error: " := rfl
    rw [hlit]
    simp only [string_append_assoc]
  have hc_rate_pat := hmsg_rate.symm ▸ htail
    ("Rate limit exceeded for " ++ vendor ++ ". Please wait and try again.")
  have hc_rate_vendor := hmsg_rate.symm ▸ hvendor
    ("Rate limit exceeded for " ++ vendor ++ ". Please wait and try again.")
  have hc_model_pat := hmsg_model.symm ▸ htail
    ("Model '" ++ model_name ++ "' not available for " ++ vendor
      ++ ". Check available models.")
  have hc_model_vendor := hmsg_model.symm ▸ hvendor
    ("Model '" ++ model_name ++ "' not available for " ++ vendor
      ++ ". Check available models.")
  have hc_conn_pat := hmsg_conn.symm ▸ htail
    ("Connection failed to " ++ vendor ++ ". Check network and service status.")
  have hc_conn_vendor := hmsg_conn.symm ▸ hvendor
    ("Connection failed to " ++ vendor ++ ". Check network and service status.")
  have hc_gen_vendor := hmsg_gen.symm ▸ hvendor
    ("Unexpected error: " ++ e.message ++ ". Check logs for details.")
  refine ⟨?_, ?_, ?_, ?_, ?_⟩
  · intro hauth
    simp only [msgHasAuthPattern, Bool.or_eq_true] at hauth
    by_cases hcls : clsHasAuthPattern (pyLower e.className) = true
    · simp only [clsHasAuthPattern, Bool.or_eq_true] at hcls
      unfold handle_completion_error
      rcases hcls with h | h <;> simp [h, hvendor, htail]
    · rw [Bool.not_eq_true] at hcls
      simp only [clsHasAuthPattern, Bool.or_eq_false_iff] at hcls
      unfold handle_completion_error
      rcases hauth with ((h | h) | h) | h <;>
        simp [hcls.1, hcls.2, h, hvendor, htail]
  · intro hcls hauth hrate
    simp only [clsHasAuthPattern, Bool.or_eq_false_iff] at hcls
    simp only [msgHasAuthPattern, Bool.or_eq_false_iff] at hauth
    simp only [msgHasRatePattern, Bool.or_eq_true] at hrate
    unfold handle_completion_error
    rcases hrate with ((h | h) | h) | h <;>
      simp [hcls.1, hcls.2, hauth.1.1.1, hauth.1.1.2, hauth.1.2, hauth.2,
        h, hc_rate_pat, hc_rate_vendor]
  · intro hcls hauth hrate hmodel
    simp only [clsHasAuthPattern, Bool.or_eq_false_iff] at hcls
    simp only [msgHasAuthPattern, Bool.or_eq_false_iff] at hauth
    simp only [msgHasRatePattern, Bool.or_eq_false_iff] at hrate
    simp only [msgHasModelPattern, Bool.or_eq_true, Bool.and_eq_true] at hmodel
    unfold handle_completion_error
    rcases hmodel with ⟨h1, h2⟩ | h
    · rcases h2 with h2 | h2 <;>
        simp [hcls.1, hcls.2, hauth.1.1.1, hauth.1.1.2, hauth.1.2, hauth.2,
          hrate.1.1.1, hrate.1.1.2, hrate.1.2, hrate.2, h1, h2,
          hc_model_pat, hc_model_vendor]
    · simp [hcls.1, hcls.2, hauth.1.1.1, hauth.1.1.2, hauth.1.2, hauth.2,
        hrate.1.1.1, hrate.1.1.2, hrate.1.2, hrate.2, h,
        hc_model_pat, hc_model_vendor]
  · intro hcls hauth hrate hmodel hconn
    simp only [clsHasAuthPattern, Bool.or_eq_false_iff] at hcls
    simp only [msgHasAuthPattern, Bool.or_eq_false_iff] at hauth
    simp only [msgHasRatePattern, Bool.or_eq_false_iff] at hrate
    simp only [msgHasModelPattern, Bool.or_eq_false_iff, Bool.and_eq_false_iff] at hmodel
    simp only [msgHasConnPattern, Bool.or_eq_true] at hconn
    unfold handle_completion_error
    rcases hconn with ((h | h) | h) | h <;>
      rcases hmodel.1 with hm | hm <;>
      simp [hcls.1, hcls.2, hauth.1.1.1, hauth.1.1.2, hauth.1.2, hauth.2,
        hrate.1.1.1, hrate.1.1.2, hrate.1.2, hrate.2, hmodel.2, hm,
        h, hc_conn_pat, hc_conn_vendor]
  · intro hcls hauth hrate hmodel hconn
    simp only [clsHasAuthPattern, Bool.or_eq_false_iff] at hcls
    simp only [msgHasAuthPattern, Bool.or_eq_false_iff] at hauth
    simp only [msgHasRatePattern, Bool.or_eq_false_iff] at hrate
    simp only [msgHasModelPattern, Bool.or_eq_false_iff, Bool.and_eq_false_iff] at hmodel
    simp only [msgHasConnPattern, Bool.or_eq_false_iff] at hconn
    unfold handle_completion_error
    rcases hmodel.1 with hm | hm <;>
      simp [hcls.1, hcls.2, hauth.1.1.1, hauth.1.1.2, hauth.1.2, hauth.2,
        hrate.1.1.1, hrate.1.1.2, hrate.1.2, hrate.2, hmodel.2, hm,
        hconn.1.1.1, hconn.1.1.2, hconn.1.2, hconn.2, hc_gen_vendor]

/-- C7 witness. -/
theorem provider_error_classification_witness :
    (msgHasAuthPattern (pyLower "Invalid API key provided") = true) ∧
    (handle_completion_error "openai" "gpt-4o" "completion"
        { className := "Exception", message := "Invalid API key provided" }).1
      = .auth ∧
    (clsHasAuthPattern (pyLower "Exception") = false) ∧
    (msgHasAuthPattern (pyLower "429: too many requests") = false) ∧
    (msgHasRatePattern (pyLower "429: too many requests") = true) ∧
    (handle_completion_error "openai" "gpt-4o" "completion"
        { className := "Exception", message := "429: too many requests" }).1
      = .rateLimit ∧
    (handle_completion_error "openai" "gpt-4o" "completion"
        { className := "Exception", message := "everything is strange" }).1
      = .generic := by
  refine ⟨by decide, ?_, by decide, by decide, by decide, ?_, ?_⟩
  · exact ((provider_error_classification "openai" "gpt-4o" "completion"
      { className := "Exception", message := "Invalid API key provided" }).1
      (by decide)).1
  · exact ((provider_error_classification "openai" "gpt-4o" "completion"
      { className := "Exception", message := "429: too many requests" }).2.1
      (by decide) (by decide) (by decide)).1
  · exact ((provider_error_classification "openai" "gpt-4o" "completion"
      { className := "Exception", message := "everything is strange" }).2.2.2.2
      (by decide) (by decide) (by decide) (by decide) (by decide)).1

/-! ## Theorems: todo upsert -/

theorem calculate_sim_norm_eq {c1 c2 : String}
    (h : normalize_todo_content c1 = normalize_todo_content c2) :
    calculate_content_similarity c1 c2 = 1 := by
  simp [calculate_content_similarity, h]

theorem find_exact_match_sim {content : String} {existing : List TodoRec}
    {t : TodoRec} (h : find_exact_match content existing = some t) :
    calculate_content_similarity content t.content = 1 := by
  have hpred := List.find?_some h
  have heq : normalize_todo_content t.content = normalize_todo_content content := by
    simpa using hpred
  exact calculate_sim_norm_eq heq.symm

theorem best_match_loop_acc_some (content : String) :
    ∀ (l : List TodoRec) (p : TodoRec × Rat),
      best_match_loop content l (some p) ≠ none := by
  intro l
  induction l with
  | nil => intro p h; simp [best_match_loop] at h
  | cons e t ih =>
      intro p
      simp only [best_match_loop]
      split
      · exact ih _
      · exact ih _

theorem best_match_loop_none_iff (content : String) (l : List TodoRec) :
    best_match_loop content l none = none ↔
      ∀ e ∈ l, calculate_content_similarity content e.content ≤ 3 / 4 := by
  induction l with
  | nil => simp [best_match_loop]
  | cons e t ih =>
      simp only [best_match_loop]
      by_cases h : calculate_content_similarity content e.content > 3 / 4
      · have hcond : calculate_content_similarity content e.content > 3 / 4 ∧
            calculate_content_similarity content e.content > 0 :=
          ⟨h, lt_trans (by norm_num) h⟩
        rw [if_pos hcond]
        constructor
        · intro hnone
          exact absurd hnone (best_match_loop_acc_some content t _)
        · intro hall
          exact absurd h (not_lt.mpr (hall e (List.mem_cons_self e t)))
      · have hcond : ¬(calculate_content_similarity content e.content > 3 / 4 ∧
            calculate_content_similarity content e.content > 0) := fun hc => h hc.1
        rw [if_neg hcond, ih]
        constructor
        · intro hall e' he'
          rcases List.mem_cons.mp he' with rfl | hm
          · exact not_lt.mp h
          · exact hall e' hm
        · intro hall e' he'
          exact hall e' (List.mem_cons_of_mem e he')

/-- C5 (amended): an entry without id updates an existing todo exactly
when some existing todo has similarity strictly greater than 0.75 with it
(exact normalized matches have similarity 1); in that case the stored
ids are unchanged (no todo is created), and otherwise a fresh todo is
appended. -/
theorem todo_upsert_strict_threshold (content : String) (existing : List TodoRec)
    (status priority new_id : String) :
    (todo_write_match content existing = .create ↔
      ∀ e ∈ existing, calculate_content_similarity content e.content ≤ 3 / 4) ∧
    ((∃ e ∈ existing, 3 / 4 < calculate_content_similarity content e.content) →
      (apply_todo_write_entry existing content status priority new_id).map
          (fun t => t.id)
        = existing.map (fun t => t.id)) ∧
    ((∀ e ∈ existing, calculate_content_similarity content e.content ≤ 3 / 4) →
      apply_todo_write_entry existing content status priority new_id
        = existing ++ [{ id := new_id, content := content
                         status := status, priority := priority }]) := by
  have hiff : todo_write_match content existing = .create ↔
      ∀ e ∈ existing, calculate_content_similarity content e.content ≤ 3 / 4 := by
    unfold todo_write_match
    rcases hfe : find_exact_match content existing with _ | t
    · rcases hbl : best_match_loop content existing none with _ | p
      · constructor
        · intro _
          exact (best_match_loop_none_iff content existing).mp hbl
        · intro _
          rfl
      · constructor
        · intro h
          simp at h
        · intro hall
          have := (best_match_loop_none_iff content existing).mpr hall
          rw [hbl] at this
          exact absurd this (by simp)
    · constructor
      · intro h
        simp at h
      · intro hall
        have hmem : t ∈ existing := List.mem_of_find?_eq_some hfe
        have h1 := hall t hmem
        rw [find_exact_match_sim hfe] at h1
        norm_num at h1
  refine ⟨hiff, ?_, ?_⟩
  · rintro ⟨e, he, hsim⟩
    have hne : todo_write_match content existing ≠ .create := by
      intro hc
      exact absurd hsim (not_lt.mpr (hiff.mp hc e he))
    rcases hm : todo_write_match content existing with i | _
    · simp only [apply_todo_write_entry, hm, List.map_map]
      apply List.map_congr_left
      intro t _
      simp only [Function.comp_apply]
      split <;> rfl
    · exact absurd hm hne
  · intro hall
    have hcreate := hiff.mpr hall
    simp [apply_todo_write_entry, hcreate]

/-- C5 counterexample: two todo contents with similarity exactly 0.75
(five of six words shared, so the Jaccard score is 5/7 and the
subset score contributes 0.9 times 5/6, that is 3/4; the Python float
computation yields exactly 0.75 here as well) — the code creates a new
todo instead of updating, so the inclusive threshold of the claim does
not hold. -/
theorem todo_upsert_threshold_not_inclusive :
    calculate_content_similarity "alpha beta gamma delta epsilon eta"
        "alpha beta gamma delta epsilon zeta" = 3 / 4 ∧
    todo_write_match "alpha beta gamma delta epsilon eta"
        [{ id := "t1", content := "alpha beta gamma delta epsilon zeta" }]
      = .create := by
  have hn1 : normalize_todo_content "alpha beta gamma delta epsilon eta"
      = "alpha beta gamma delta epsilon eta" := by decide
  have hn2 : normalize_todo_content "alpha beta gamma delta epsilon zeta"
      = "alpha beta gamma delta epsilon zeta" := by decide
  have hnne : ("alpha beta gamma delta epsilon eta" : String)
      ≠ "alpha beta gamma delta epsilon zeta" := by decide
  have hw1 : (pyWords "alpha beta gamma delta epsilon eta").dedup
      = ["alpha", "beta", "gamma", "delta", "epsilon", "eta"] := by decide
  have hw2 : (pyWords "alpha beta gamma delta epsilon zeta").dedup
      = ["alpha", "beta", "gamma", "delta", "epsilon", "zeta"] := by decide
  have hf1 : ((["alpha", "beta", "gamma", "delta", "epsilon", "eta"] : List String).filter
      (fun w => (["alpha", "beta", "gamma", "delta", "epsilon", "zeta"] :
        List String).contains w)).length = 5 := by decide
  have hf2 : ((["alpha", "beta", "gamma", "delta", "epsilon", "zeta"] : List String).filter
      (fun w => !(["alpha", "beta", "gamma", "delta", "epsilon", "eta"] :
        List String).contains w)).length = 1 := by decide
  have hsim : calculate_content_similarity "alpha beta gamma delta epsilon eta"
      "alpha beta gamma delta epsilon zeta" = 3 / 4 := by
    simp only [calculate_content_similarity, hn1, hn2, hw1, hw2]
    rw [if_neg hnne]
    rw [if_neg (by decide :
      ¬((["alpha", "beta", "gamma", "delta", "epsilon", "eta"] : List String).isEmpty
        || (["alpha", "beta", "gamma", "delta", "epsilon", "zeta"] :
             List String).isEmpty) = true)]
    simp only [hf1, hf2, List.length_cons, List.length_nil]
    norm_num
  refine ⟨hsim, ?_⟩
  have hfind : find_exact_match "alpha beta gamma delta epsilon eta"
      [{ id := "t1", content := "alpha beta gamma delta epsilon zeta" }] = none := by
    decide
  have hloop : best_match_loop "alpha beta gamma delta epsilon eta"
      [{ id := "t1", content := "alpha beta gamma delta epsilon zeta" }] none
      = none := by
    simp only [best_match_loop, hsim]
    rw [if_neg (show ¬((3 : Rat) / 4 > 3 / 4 ∧ (3 : Rat) / 4 > 0) from
      fun hc => absurd hc.1 (lt_irrefl _))]
  unfold todo_write_match
  rw [hfind, hloop]

/-- C5 witness. -/
theorem todo_upsert_strict_threshold_witness :
    (∃ e ∈ [({ id := "t1", content := "alpha beta gamma!" } : TodoRec)],
      3 / 4 < calculate_content_similarity "alpha beta gamma" e.content) ∧
    (apply_todo_write_entry [{ id := "t1", content := "alpha beta gamma!" }]
        "alpha beta gamma" "pending" "medium" "new1").map (fun t => t.id)
      = [({ id := "t1", content := "alpha beta gamma!" } : TodoRec)].map
          (fun t => t.id) := by
  have hnorm : normalize_todo_content "alpha beta gamma"
      = normalize_todo_content "alpha beta gamma!" := by decide
  have hex : ∃ e ∈ [({ id := "t1", content := "alpha beta gamma!" } : TodoRec)],
      3 / 4 < calculate_content_similarity "alpha beta gamma" e.content := by
    refine ⟨{ id := "t1", content := "alpha beta gamma!" }, by simp, ?_⟩
    rw [calculate_sim_norm_eq hnorm]
    norm_num
  exact ⟨hex, (todo_upsert_strict_threshold "alpha beta gamma"
    [{ id := "t1", content := "alpha beta gamma!" }] "pending" "medium" "new1").2.1 hex⟩

end Songbird
